import Mathlib

deriving instance DecidableEq for Except

/-!
Shallow embedding of the Zentry vault core (crypto.py and vault.py).

Modelling choices:
* Byte strings are symbolic `Data` terms.  The cryptographic primitives of the
  `cryptography` library are idealized: PBKDF2 is an injective function of
  (password, salt, iterations, length); AES-GCM encryption of `p` under key
  `k`, nonce `n` and associated data `a` is the symbolic ciphertext
  `Data.ct k n a p`, and decryption succeeds exactly when key, nonce and aad
  all match, returning the original plaintext (authenticated encryption,
  ideal functional model).
* `os.urandom(size)` is modelled by threading an explicit generator counter
  `g : Nat`; the call at step `g` returns the distinguished value
  `Data.rand size g` and advances the counter.  Distinct draws are distinct.
* URL-safe base64 encoding of binary fields for JSON storage is a bijection
  applied only at the storage boundary; records hold the underlying `Data`
  values directly.  The one base64 text that appears inside an item payload
  (the decoy welcome file) is kept as its decoded byte content.
* `json.dumps` of an item list is the injective constructor `Data.items`;
  `json.loads` inverts it and fails on any other byte string.
* Python exceptions become `Except` errors.  `VaultError.valueError msg`
  models `raise ValueError(msg)`; `VaultError.invalidTag` models the
  `cryptography` library's InvalidTag exception escaping uncaught;
  `VaultError.typeError` models an uncaught TypeError (subscripting None);
  `VaultError.jsonError` models an uncaught deserialization error.
-/

/-- A vault item, as stored in the JSON body:
`{"name":..., "type":"file"|"note", "data": base64(...)}`. -/
structure Item where
  name : String
  type : String
  data : String
deriving DecidableEq, Repr

/-- Symbolic byte strings. -/
inductive Data where
  /-- A literal byte string. -/
  | raw : List Nat → Data
  /-- `os.urandom size` evaluated when the generator counter was `idx`. -/
  | rand : (size : Nat) → (idx : Nat) → Data
  /-- PBKDF2-HMAC-SHA256 of (password, salt, iterations, length):
  `derive_key` in crypto.py. -/
  | derived : String → Data → Nat → Nat → Data
  /-- AES-GCM ciphertext of (key, nonce, aad, plaintext). -/
  | ct : Data → Data → Data → Data → Data
  /-- `json.dumps` of an item list, as UTF-8 bytes. -/
  | items : List Item → Data
deriving DecidableEq, Repr

-- === Crypto constants (crypto.py) ===

def KDF_ITERATIONS : Nat := 200000

def SALT_SIZE : Nat := 16

def NONCE_SIZE : Nat := 12

def CEK_SIZE : Nat := 32

/-- `AAD_HEADER = b"zentry-v1"` (9 bytes). -/
def AAD_HEADER : Data := Data.raw [122, 101, 110, 116, 114, 121, 45, 118, 49]

-- === Key derivation (crypto.py derive_key) ===

/-- `derive_key(password, salt, iterations, length)`: deterministic PBKDF2;
modelled as the injective symbolic constructor. -/
def derive_key (password : String) (salt : Data) (iterations : Nat) (length : Nat) : Data :=
  Data.derived password salt iterations length

-- === AES-GCM encrypt/decrypt helpers (crypto.py) ===

/-- `aesgcm_encrypt(key, plaintext, aad)`: draws a fresh 12-byte nonce from
`os.urandom` and returns `(nonce, ciphertext)`, threading the generator. -/
def aesgcm_encrypt (key : Data) (plaintext : Data) (aad : Data) (g : Nat) :
    (Data × Data) × Nat :=
  let nonce := Data.rand NONCE_SIZE g
  ((nonce, Data.ct key nonce aad plaintext), g + 1)

/-- `aesgcm_decrypt(key, nonce, ciphertext, aad)`: ideal authenticated
decryption — succeeds exactly when the ciphertext was produced under the same
key, nonce and aad, else raises InvalidTag (here: `none`). -/
def aesgcm_decrypt (key : Data) (nonce : Data) (ciphertext : Data) (aad : Data) :
    Option Data :=
  match ciphertext with
  | Data.ct k n a p => if k = key ∧ n = nonce ∧ a = aad then some p else none
  | _ => none

-- === CEK creation & wrapping (crypto.py) ===

/-- `create_cek()`: 32 random bytes. -/
def create_cek (g : Nat) : Data × Nat :=
  (Data.rand CEK_SIZE g, g + 1)

/-- A wrapped-key record `{salt, nonce, ct}` (base64 fields in JSON). -/
structure WrappedKey where
  salt : Data
  nonce : Data
  ct : Data
deriving DecidableEq, Repr

/-- `wrap_cek_with_password(cek, password)`: fresh salt, PBKDF2 key,
AES-GCM encrypt the CEK under a fresh nonce. -/
def wrap_cek_with_password (cek : Data) (password : String) (g : Nat) :
    WrappedKey × Nat :=
  let salt := Data.rand SALT_SIZE g
  let kek := derive_key password salt KDF_ITERATIONS 32
  let e := aesgcm_encrypt kek cek AAD_HEADER (g + 1)
  ({ salt := salt, nonce := e.1.1, ct := e.1.2 }, e.2)

/-- `unwrap_cek_with_password(wrapped, password)`: re-derive the key from the
stored salt and decrypt.  `none` models the library's InvalidTag exception. -/
def unwrap_cek_with_password (wrapped : WrappedKey) (password : String) : Option Data :=
  let kek := derive_key password wrapped.salt KDF_ITERATIONS 32
  aesgcm_decrypt kek wrapped.nonce wrapped.ct AAD_HEADER

-- === Envelope encryption (crypto.py) ===

/-- `encrypt_payload_with_cek(cek, payload)`: returns `(nonce, ct)` pair. -/
def encrypt_payload_with_cek (cek : Data) (payload : Data) (g : Nat) :
    (Data × Data) × Nat :=
  aesgcm_encrypt cek payload AAD_HEADER g

/-- `decrypt_payload_with_cek(cek, enc)` for `enc = {nonce, ct}`. -/
def decrypt_payload_with_cek (cek : Data) (nonce : Data) (ciphertext : Data) : Option Data :=
  aesgcm_decrypt cek nonce ciphertext AAD_HEADER

-- === Vault blob (crypto.py) ===

/-- The blob structure `{version, aad, file_ct, file_nonce}`. -/
structure Blob where
  version : Nat
  aad : Data
  file_ct : Data
  file_nonce : Data
deriving DecidableEq, Repr

/-- `create_vault_blob(cek, items_json_bytes)`: encrypt the body with the CEK
and record the protocol aad tag alongside. -/
def create_vault_blob (cek : Data) (items_json_bytes : Data) (g : Nat) : Blob × Nat :=
  let e := encrypt_payload_with_cek cek items_json_bytes g
  ({ version := 1, aad := AAD_HEADER, file_ct := e.1.2, file_nonce := e.1.1 }, e.2)

/-- `decrypt_vault_blob(cek, blob)`: decrypts `file_ct` under `file_nonce`.
Faithful to crypto.py lines 121-123: the stored `blob.aad` field is not
consulted; decryption always uses the fixed `AAD_HEADER`. -/
def decrypt_vault_blob (cek : Data) (blob : Blob) : Option Data :=
  decrypt_payload_with_cek cek blob.file_nonce blob.file_ct

-- === Vault layer (vault.py) ===

/-- Exceptions that can escape the vault methods. -/
inductive VaultError where
  /-- `raise ValueError(msg)` inside vault.py. -/
  | valueError : String → VaultError
  /-- The cryptography library's InvalidTag exception escaping uncaught. -/
  | invalidTag : VaultError
  /-- An uncaught TypeError (e.g. subscripting a None wrapped record). -/
  | typeError : VaultError
  /-- An uncaught deserialization failure in `json.loads` / UTF-8 decode. -/
  | jsonError : VaultError
deriving DecidableEq, Repr

/-- The opaque, normalized error kinds of the spec: AuthenticationFailed
(the two generic "unable to unlock" ValueErrors) and SecondFactorRequired
(the "two-level authentication required" ValueError). -/
def isOpaqueKind : VaultError → Bool
  | VaultError.valueError "unable to unlock vault" => true
  | VaultError.valueError "unable to unlock decoy" => true
  | VaultError.valueError "two-level authentication required" => true
  | _ => false

/-- The real-vault policy object. -/
structure Policy where
  requires_l2 : Bool
deriving DecidableEq, Repr

/-- The persisted real record
`{version, policy, wrapped_l1, wrapped_l2 | null, blob}` (real.zvlt). -/
structure RealStore where
  version : Nat
  policy : Policy
  wrapped_l1 : WrappedKey
  wrapped_l2 : Option WrappedKey
  blob : Blob
deriving DecidableEq, Repr

/-- The persisted decoy record `{version, wrapped, blob}` (decoy.zvlt). -/
structure DecoyStore where
  version : Nat
  wrapped : WrappedKey
  blob : Blob
deriving DecidableEq, Repr

/-- meta.json: `{version, real: {file, two_level}, decoy: {file}}`;
the fixed file names are omitted. -/
structure Meta where
  version : Nat
  real_two_level : Bool
deriving DecidableEq, Repr

/-- Python truthiness of an `Optional[str]`: `None` and the empty string are
falsy (`if not l2_password`, `bool(l2_password)`). -/
def falsy : Option String → Bool
  | none => true
  | some s => s == ""

/-- `json.loads` of a vault body: inverts `Data.items`, fails otherwise. -/
def json_loads : Data → Option (List Item)
  | Data.items l => some l
  | _ => none

/-- Lines 121-123 of vault.py (shared tail of `unlock_real` and
`unlock_decoy`): decrypt the blob and deserialize, with no try/except —
failures escape as the underlying library exceptions. -/
def open_blob_items (cek : Data) (blob : Blob) : Except VaultError (List Item) :=
  match decrypt_vault_blob cek blob with
  | none => Except.error VaultError.invalidTag
  | some body =>
    match json_loads body with
    | none => Except.error VaultError.jsonError
    | some its => Except.ok its

/-- `Vault.unlock_real(l1_password, l2_password)`, operating on the loaded
real record.  Unwrap with L1 inside try/except (normalized to
ValueError "unable to unlock vault"); if the policy requires L2, check
presence (ValueError "two-level authentication required"), unwrap L2 inside
try/except, require byte-equal CEKs; finally decrypt the blob (uncaught). -/
def unlock_real (store : RealStore) (l1_password : String) (l2_password : Option String) :
    Except VaultError (List Item) :=
  match unwrap_cek_with_password store.wrapped_l1 l1_password with
  | none => Except.error (VaultError.valueError "unable to unlock vault")
  | some cek =>
    if store.policy.requires_l2 then
      if falsy l2_password then
        Except.error (VaultError.valueError "two-level authentication required")
      else
        match store.wrapped_l2 with
        | none =>
          -- store["wrapped_l2"] is None: unwrap raises TypeError, caught by
          -- the broad `except Exception` and normalized.
          Except.error (VaultError.valueError "unable to unlock vault")
        | some w2 =>
          match unwrap_cek_with_password w2 (l2_password.getD "") with
          | none => Except.error (VaultError.valueError "unable to unlock vault")
          | some cek2 =>
            if cek ≠ cek2 then
              Except.error (VaultError.valueError "unable to unlock vault")
            else open_blob_items cek store.blob
    else open_blob_items cek store.blob

/-- Shared tail of `save_real_items`: seal the new body under the recovered
CEK and overwrite only the `blob` field of the record. -/
def reseal_real (store : RealStore) (cek : Data) (its : List Item) (g : Nat) :
    RealStore × Nat :=
  let r := create_vault_blob cek (Data.items its) g
  ({ store with blob := r.1 }, r.2)

/-- `Vault.save_real_items(l1_password, l2_password, items)`.  Unlike
`unlock_real`, none of the unwrap calls here sit inside a try/except, so a
failed unwrap escapes as the raw InvalidTag library exception, and a None
`wrapped_l2` as a raw TypeError; only the CEK-mismatch and missing-L2 checks
raise ValueError. -/
def save_real_items (store : RealStore) (l1_password : String) (l2_password : Option String)
    (its : List Item) (g : Nat) : Except VaultError (RealStore × Nat) :=
  match unwrap_cek_with_password store.wrapped_l1 l1_password with
  | none => Except.error VaultError.invalidTag
  | some cek =>
    if store.policy.requires_l2 then
      if falsy l2_password then
        Except.error (VaultError.valueError "two-level authentication required")
      else
        match store.wrapped_l2 with
        | none => Except.error VaultError.typeError
        | some w2 =>
          match unwrap_cek_with_password w2 (l2_password.getD "") with
          | none => Except.error VaultError.invalidTag
          | some cek2 =>
            if cek ≠ cek2 then
              Except.error (VaultError.valueError "unable to unlock vault")
            else Except.ok (reseal_real store cek its g)
    else Except.ok (reseal_real store cek its g)

/-- `Vault.unlock_decoy(decoy_password)`: single-wrap unlock; the unwrap is
normalized to ValueError "unable to unlock decoy", the blob decrypt is not. -/
def unlock_decoy (store : DecoyStore) (decoy_password : String) :
    Except VaultError (List Item) :=
  match unwrap_cek_with_password store.wrapped decoy_password with
  | none => Except.error (VaultError.valueError "unable to unlock decoy")
  | some decoy_cek => open_blob_items decoy_cek store.blob

/-- `Vault.save_decoy_items(decoy_password, items)`: no try/except at all;
a failed unwrap escapes as the raw InvalidTag library exception. -/
def save_decoy_items (store : DecoyStore) (decoy_password : String)
    (its : List Item) (g : Nat) : Except VaultError (DecoyStore × Nat) :=
  match unwrap_cek_with_password store.wrapped decoy_password with
  | none => Except.error VaultError.invalidTag
  | some decoy_cek =>
    let r := create_vault_blob decoy_cek (Data.items its) g
    Except.ok ({ store with blob := r.1 }, r.2)

/-- The fixed decoy content written by `init_new` (base64 payload kept as its
decoded bytes). -/
def decoy_welcome_items : List Item :=
  [{ name := "decoy_welcome.txt", type := "file",
     data := "Welcome to the decoy vault. Nothing secret here.\n" }]

/-- `Vault.init_new(l1_password, l2_password, decoy_password)`: builds
meta.json, the real record (CEK wrapped under L1 and, when `l2_password` is
truthy, also under L2) and the independently keyed decoy record, consuming
randomness in the source's order. -/
def init_new (l1_password : String) (l2_password : Option String) (decoy_password : String)
    (g : Nat) : (Meta × RealStore × DecoyStore) × Nat :=
  let two_level := !(falsy l2_password)
  let meta : Meta := { version := 1, real_two_level := two_level }
  let r1 := create_cek g
  let cek := r1.1
  let body := Data.items []
  let r2 := create_vault_blob cek body r1.2
  let r3 := wrap_cek_with_password cek l1_password r2.2
  let r4 : Option WrappedKey × Nat :=
    if falsy l2_password then (none, r3.2)
    else
      let w := wrap_cek_with_password cek (l2_password.getD "") r3.2
      (some w.1, w.2)
  let real_store : RealStore :=
    { version := 1, policy := { requires_l2 := two_level },
      wrapped_l1 := r3.1, wrapped_l2 := r4.1, blob := r2.1 }
  let r5 := create_cek r4.2
  let decoy_cek := r5.1
  let r6 := create_vault_blob decoy_cek (Data.items decoy_welcome_items) r5.2
  let r7 := wrap_cek_with_password decoy_cek decoy_password r6.2
  let decoy_store : DecoyStore := { version := 1, wrapped := r7.1, blob := r6.1 }
  ((meta, real_store, decoy_store), r7.2)

/-- All `Data.rand` draws inside a term have index below `g` (the term was
produced before generator state `g`). -/
def Data.randBelow : Data → Nat → Bool
  | Data.raw _, _ => true
  | Data.rand _ i, g => i < g
  | Data.derived _ s _ _, g => s.randBelow g
  | Data.ct k n a p, g => k.randBelow g && n.randBelow g && a.randBelow g && p.randBelow g
  | Data.items _, _ => true

-- === Helper lemmas (shared) ===

/-- A term whose random draws all predate generator state `g` is distinct
from the fresh draw `Data.rand s g`. -/
theorem randBelow_ne {d : Data} {g : Nat} (h : d.randBelow g = true) (s : Nat) :
    d ≠ Data.rand s g := by
  intro he
  subst he
  simp [Data.randBelow] at h

/-- A successful `save_real_items` output is exactly a reseal of the input
record under the recovered CEK. -/
theorem save_real_items_ok (store : RealStore) (l1_password : String)
    (l2_password : Option String) (its : List Item) (g : Nat) (out : RealStore × Nat)
    (h : save_real_items store l1_password l2_password its g = Except.ok out) :
    ∃ cek, out = reseal_real store cek its g := by
  unfold save_real_items at h
  split at h
  · exact absurd h (by simp)
  next cek heq =>
    split at h
    · split at h
      · exact absurd h (by simp)
      · split at h
        · exact absurd h (by simp)
        · split at h
          · exact absurd h (by simp)
          · split at h
            · exact absurd h (by simp)
            · refine ⟨cek, ?_⟩
              exact (by simpa using h : reseal_real store cek its g = out).symm
    · refine ⟨cek, ?_⟩
      exact (by simpa using h : reseal_real store cek its g = out).symm

-- === Claim theorems ===

/-- C6: round-trip — unwrapping a freshly wrapped CEK with the wrapping
password returns the original CEK exactly, and opening a blob sealed under a
CEK with that same CEK reproduces the payload exactly. -/
theorem c6_round_trip (cek : Data) (password : String) (B : Data) (g h : Nat) :
    unwrap_cek_with_password (wrap_cek_with_password cek password g).1 password = some cek ∧
    decrypt_vault_blob cek (create_vault_blob cek B h).1 = some B := by
  constructor <;>
    simp [unwrap_cek_with_password, wrap_cek_with_password, decrypt_vault_blob,
      create_vault_blob, encrypt_payload_with_cek, decrypt_payload_with_cek,
      aesgcm_encrypt, aesgcm_decrypt, derive_key]

/-- C4: every encryption call draws a fresh random 12-byte nonce from the
generator and advances it, so two sequential seals of the same plaintext
under the same CEK produce distinct nonces. -/
theorem c4_nonce_freshness (key pt aad cek B : Data) (g h : Nat) :
    (aesgcm_encrypt key pt aad g).1.1 = Data.rand NONCE_SIZE g ∧
    (aesgcm_encrypt key pt aad g).2 = g + 1 ∧
    NONCE_SIZE = 12 ∧
    (create_vault_blob cek B h).1.file_nonce = Data.rand NONCE_SIZE h ∧
    (create_vault_blob cek B ((create_vault_blob cek B h).2)).1.file_nonce ≠
      (create_vault_blob cek B h).1.file_nonce := by
  refine ⟨rfl, rfl, rfl, rfl, ?_⟩
  simp [create_vault_blob, encrypt_payload_with_cek, aesgcm_encrypt]

/-- C3 counterexample: `decrypt_vault_blob` never consults the blob's stored
`aad` field — a blob whose `aad` field differs from `AAD_HEADER` but whose
ciphertext is authentic under `AAD_HEADER` is still decrypted and returns the
payload, contradicting the claim that such a blob is never decrypted. -/
theorem c3_counterexample :
    ({ (create_vault_blob (Data.rand 32 0) (Data.raw [7]) 1).1 with
        aad := Data.raw [0] } : Blob).aad ≠ AAD_HEADER ∧
    decrypt_vault_blob (Data.rand 32 0)
      { (create_vault_blob (Data.rand 32 0) (Data.raw [7]) 1).1 with
        aad := Data.raw [0] } = some (Data.raw [7]) := by
  decide

/-- C3 (amended): opening a blob passes the fixed `AAD_HEADER` tag to
authenticated decryption, so a ciphertext bound to any other associated-data
tag is rejected; but the blob's stored `aad` field itself is never inspected —
the result of `decrypt_vault_blob` is independent of it. -/
theorem c3_amended (cek : Data) (blob : Blob) (a2 : Data) (k n a p : Data)
    (hct : blob.file_ct = Data.ct k n a p) (hne : a ≠ AAD_HEADER) :
    decrypt_vault_blob cek { blob with aad := a2 } = decrypt_vault_blob cek blob ∧
    decrypt_vault_blob cek blob = none := by
  constructor
  · simp [decrypt_vault_blob, decrypt_payload_with_cek]
  · simp [decrypt_vault_blob, decrypt_payload_with_cek, aesgcm_decrypt, hct, hne]

/-- C3 (amended) witness at a concrete blob whose ciphertext is bound to a
foreign associated-data tag. -/
theorem c3_amended_witness :
    decrypt_vault_blob (Data.rand 32 0)
      { version := 1, aad := Data.raw [9],
        file_ct := Data.ct (Data.rand 32 0) (Data.rand 12 1) (Data.raw [1]) (Data.raw [7]),
        file_nonce := Data.rand 12 1 } = none := by
  exact (c3_amended (Data.rand 32 0)
    { version := 1, aad := Data.raw [9],
      file_ct := Data.ct (Data.rand 32 0) (Data.rand 12 1) (Data.raw [1]) (Data.raw [7]),
      file_nonce := Data.rand 12 1 }
    (Data.raw [9]) (Data.rand 32 0) (Data.rand 12 1) (Data.raw [1]) (Data.raw [7])
    rfl (by decide)).2

/-- C2 counterexample: `save_decoy_items` with a wrong password surfaces the
raw InvalidTag library exception, which is not one of the opaque normalized
error kinds — the unwrap there sits outside any try/except. -/
theorem c2_counterexample :
    save_decoy_items ((init_new "alpha" none "beta" 0).1.2.2) "gamma" [] 20 =
      Except.error VaultError.invalidTag ∧
    isOpaqueKind VaultError.invalidTag = false := by
  decide

/-- C2 (amended): failures of the CEK unwrap inside `unlock_real` and
`unlock_decoy` are normalized to the opaque ValueError kinds; but a failed
unwrap in `save_real_items` (both the L1 and the L2 one) or in
`save_decoy_items`, and a failed blob decryption in `unlock_real` (on either
policy path) or `unlock_decoy`, escape as the raw InvalidTag library
exception, which is not an opaque kind. -/
theorem c2_amended (rs : RealStore) (ds : DecoyStore) (l1 dpw : String)
    (l2 : Option String) (its : List Item) (g : Nat) (cek : Data) (w2 : WrappedKey) :
    (unwrap_cek_with_password rs.wrapped_l1 l1 = none →
      unlock_real rs l1 l2 = Except.error (VaultError.valueError "unable to unlock vault") ∧
      isOpaqueKind (VaultError.valueError "unable to unlock vault") = true) ∧
    (unwrap_cek_with_password ds.wrapped dpw = none →
      unlock_decoy ds dpw = Except.error (VaultError.valueError "unable to unlock decoy") ∧
      isOpaqueKind (VaultError.valueError "unable to unlock decoy") = true) ∧
    (unwrap_cek_with_password rs.wrapped_l1 l1 = none →
      save_real_items rs l1 l2 its g = Except.error VaultError.invalidTag ∧
      isOpaqueKind VaultError.invalidTag = false) ∧
    (unwrap_cek_with_password ds.wrapped dpw = none →
      save_decoy_items ds dpw its g = Except.error VaultError.invalidTag) ∧
    (unwrap_cek_with_password rs.wrapped_l1 l1 = some cek →
      rs.policy.requires_l2 = false →
      decrypt_vault_blob cek rs.blob = none →
      unlock_real rs l1 l2 = Except.error VaultError.invalidTag) ∧
    (unwrap_cek_with_password rs.wrapped_l1 l1 = some cek →
      rs.policy.requires_l2 = true →
      falsy l2 = false →
      rs.wrapped_l2 = some w2 →
      unwrap_cek_with_password w2 (l2.getD "") = some cek →
      decrypt_vault_blob cek rs.blob = none →
      unlock_real rs l1 l2 = Except.error VaultError.invalidTag) ∧
    (unwrap_cek_with_password ds.wrapped dpw = some cek →
      decrypt_vault_blob cek ds.blob = none →
      unlock_decoy ds dpw = Except.error VaultError.invalidTag) ∧
    (unwrap_cek_with_password rs.wrapped_l1 l1 = some cek →
      rs.policy.requires_l2 = true →
      falsy l2 = false →
      rs.wrapped_l2 = some w2 →
      unwrap_cek_with_password w2 (l2.getD "") = none →
      save_real_items rs l1 l2 its g = Except.error VaultError.invalidTag) := by
  refine ⟨fun h => ⟨?_, by decide⟩, fun h => ⟨?_, by decide⟩,
      fun h => ⟨?_, by decide⟩, fun h => ?_,
      fun h1 h2 h3 => ?_, fun h1 h2 h3 h4 h5 h6 => ?_,
      fun h1 h2 => ?_, fun h1 h2 h3 h4 h5 => ?_⟩
  · simp [unlock_real, h]
  · simp [unlock_decoy, h]
  · simp [save_real_items, h]
  · simp [save_decoy_items, h]
  · simp [unlock_real, h1, h2, open_blob_items, h3]
  · simp [unlock_real, h1, h2, h3, h4, h5, open_blob_items, h6]
  · simp [unlock_decoy, h1, open_blob_items, h2]
  · simp [save_real_items, h1, h2, h3, h4, h5]

/-- C2 (amended) witness: a wrong L1 password on a concrete real record is
normalized by `unlock_real`; a wrong decoy password leaks the raw library
exception from `save_decoy_items`, as does a wrong L2 password in
`save_real_items`; and a corrupted blob leaks it from `unlock_real` (on both
policy paths) and from `unlock_decoy`. -/
theorem c2_amended_witness :
    unlock_real ((init_new "alpha" none "beta" 0).1.2.1) "x" none =
      Except.error (VaultError.valueError "unable to unlock vault") ∧
    save_decoy_items ((init_new "alpha" none "beta" 0).1.2.2) "y" [] 9 =
      Except.error VaultError.invalidTag ∧
    unlock_real { (init_new "alpha" none "beta" 0).1.2.1 with
        blob := { version := 1, aad := AAD_HEADER,
                  file_ct := Data.raw [1], file_nonce := Data.raw [2] } }
      "alpha" none = Except.error VaultError.invalidTag ∧
    unlock_real { (init_new "a1" (some "a2") "d" 0).1.2.1 with
        blob := { version := 1, aad := AAD_HEADER,
                  file_ct := Data.raw [1], file_nonce := Data.raw [2] } }
      "a1" (some "a2") = Except.error VaultError.invalidTag ∧
    unlock_decoy { (init_new "alpha" none "beta" 0).1.2.2 with
        blob := { version := 1, aad := AAD_HEADER,
                  file_ct := Data.raw [1], file_nonce := Data.raw [2] } }
      "beta" = Except.error VaultError.invalidTag ∧
    save_real_items ((init_new "a1" (some "a2") "d" 0).1.2.1) "a1" (some "wrong") [] 9 =
      Except.error VaultError.invalidTag := by
  refine ⟨((c2_amended ((init_new "alpha" none "beta" 0).1.2.1)
      ((init_new "alpha" none "beta" 0).1.2.2) "x" "y" none [] 9 (Data.raw [])
      { salt := Data.raw [], nonce := Data.raw [], ct := Data.raw [] }).1 (by decide)).1,
    (c2_amended ((init_new "alpha" none "beta" 0).1.2.1)
      ((init_new "alpha" none "beta" 0).1.2.2) "x" "y" none [] 9 (Data.raw [])
      { salt := Data.raw [], nonce := Data.raw [], ct := Data.raw [] }).2.2.2.1 (by decide),
    (c2_amended { (init_new "alpha" none "beta" 0).1.2.1 with
        blob := { version := 1, aad := AAD_HEADER,
                  file_ct := Data.raw [1], file_nonce := Data.raw [2] } }
      ((init_new "alpha" none "beta" 0).1.2.2) "alpha" "beta" none [] 9 (Data.rand 32 0)
      { salt := Data.raw [], nonce := Data.raw [], ct := Data.raw [] }).2.2.2.2.1
      (by decide) (by decide) (by decide),
    (c2_amended { (init_new "a1" (some "a2") "d" 0).1.2.1 with
        blob := { version := 1, aad := AAD_HEADER,
                  file_ct := Data.raw [1], file_nonce := Data.raw [2] } }
      ((init_new "a1" (some "a2") "d" 0).1.2.2) "a1" "d" (some "a2") [] 9 (Data.rand 32 0)
      (wrap_cek_with_password (Data.rand 32 0) "a2" 4).1).2.2.2.2.2.1
      (by decide) (by decide) (by decide) (by decide) (by decide) (by decide),
    (c2_amended ((init_new "alpha" none "beta" 0).1.2.1)
      { (init_new "alpha" none "beta" 0).1.2.2 with
        blob := { version := 1, aad := AAD_HEADER,
                  file_ct := Data.raw [1], file_nonce := Data.raw [2] } }
      "alpha" "beta" none [] 9 (Data.rand 32 4)
      { salt := Data.raw [], nonce := Data.raw [], ct := Data.raw [] }).2.2.2.2.2.2.1
      (by decide) (by decide),
    (c2_amended ((init_new "a1" (some "a2") "d" 0).1.2.1)
      ((init_new "a1" (some "a2") "d" 0).1.2.2) "a1" "d" (some "wrong") [] 9
      (Data.rand 32 0)
      (wrap_cek_with_password (Data.rand 32 0) "a2" 4).1).2.2.2.2.2.2.2
      (by decide) (by decide) (by decide) (by decide) (by decide)⟩

/-- C1: on a record requiring L2, when L1 unwraps to one CEK and L2 unwraps
to a different CEK, `unlock_real` fails with the same opaque
"unable to unlock vault" error, and does so for every possible blob — it
never proceeds to decrypt the blob. -/
theorem c1_l2_mismatch (store : RealStore) (l1_password : String)
    (l2_password : Option String) (w2 : WrappedKey) (a b : Data)
    (hreq : store.policy.requires_l2 = true)
    (h1 : unwrap_cek_with_password store.wrapped_l1 l1_password = some a)
    (hw2 : store.wrapped_l2 = some w2)
    (hl2 : falsy l2_password = false)
    (h2 : unwrap_cek_with_password w2 (l2_password.getD "") = some b)
    (hab : a ≠ b) :
    unlock_real store l1_password l2_password =
      Except.error (VaultError.valueError "unable to unlock vault") ∧
    ∀ blob2 : Blob,
      unlock_real { store with blob := blob2 } l1_password l2_password =
        Except.error (VaultError.valueError "unable to unlock vault") := by
  refine ⟨?_, fun blob2 => ?_⟩ <;>
    simp [unlock_real, hreq, h1, hw2, hl2, h2, hab]

/-- C1 witness: a concrete record whose L1 and L2 wrap different CEKs. -/
theorem c1_witness :
    unlock_real
      { version := 1, policy := { requires_l2 := true },
        wrapped_l1 := (wrap_cek_with_password (Data.rand 32 0) "a1" 2).1,
        wrapped_l2 := some (wrap_cek_with_password (Data.rand 32 1) "a2" 4).1,
        blob := (create_vault_blob (Data.rand 32 0) (Data.items []) 6).1 }
      "a1" (some "a2") =
      Except.error (VaultError.valueError "unable to unlock vault") := by
  exact (c1_l2_mismatch
    { version := 1, policy := { requires_l2 := true },
      wrapped_l1 := (wrap_cek_with_password (Data.rand 32 0) "a1" 2).1,
      wrapped_l2 := some (wrap_cek_with_password (Data.rand 32 1) "a2" 4).1,
      blob := (create_vault_blob (Data.rand 32 0) (Data.items []) 6).1 }
    "a1" (some "a2") (wrap_cek_with_password (Data.rand 32 1) "a2" 4).1
    (Data.rand 32 0) (Data.rand 32 1)
    rfl (by decide) rfl (by decide) (by decide) (by decide)).1

/-- C5: on a record requiring L2, a wrong L1 password yields the opaque
"unable to unlock vault" failure regardless of the L2 argument (the L1 unwrap
is attempted before the L2-presence check), while a correct L1 with no L2
supplied yields the distinct "two-level authentication required" failure. -/
theorem c5_l1_before_l2 (store : RealStore) (l1_password : String)
    (hreq : store.policy.requires_l2 = true) :
    (unwrap_cek_with_password store.wrapped_l1 l1_password = none →
      ∀ l2_password : Option String,
        unlock_real store l1_password l2_password =
          Except.error (VaultError.valueError "unable to unlock vault")) ∧
    (∀ cek : Data, unwrap_cek_with_password store.wrapped_l1 l1_password = some cek →
      unlock_real store l1_password none =
        Except.error (VaultError.valueError "two-level authentication required")) := by
  constructor
  · intro h l2_password
    simp [unlock_real, h]
  · intro cek h
    simp [unlock_real, h, hreq, falsy]

/-- C5 witness on a freshly initialized two-level vault. -/
theorem c5_witness :
    unlock_real ((init_new "a1" (some "a2") "d" 0).1.2.1) "bad" none =
      Except.error (VaultError.valueError "unable to unlock vault") ∧
    unlock_real ((init_new "a1" (some "a2") "d" 0).1.2.1) "a1" none =
      Except.error (VaultError.valueError "two-level authentication required") := by
  exact ⟨(c5_l1_before_l2 ((init_new "a1" (some "a2") "d" 0).1.2.1) "bad"
      (by decide)).1 (by decide) none,
    (c5_l1_before_l2 ((init_new "a1" (some "a2") "d" 0).1.2.1) "a1"
      (by decide)).2 (Data.rand 32 0) (by decide)⟩

/-- C7: a successful `save_real_items` changes only the `blob` field — the
version, policy and both wrapped keys are unchanged — and the new blob's
nonce is the fresh draw at the current generator state, distinct from the
previous blob's nonce. -/
theorem c7_save_frame (store : RealStore) (l1_password : String)
    (l2_password : Option String) (its : List Item) (g : Nat)
    (store' : RealStore) (g' : Nat)
    (hfresh : store.blob.file_nonce.randBelow g = true)
    (h : save_real_items store l1_password l2_password its g = Except.ok (store', g')) :
    store'.version = store.version ∧
    store'.policy = store.policy ∧
    store'.wrapped_l1 = store.wrapped_l1 ∧
    store'.wrapped_l2 = store.wrapped_l2 ∧
    store'.blob.file_nonce = Data.rand NONCE_SIZE g ∧
    store'.blob.file_nonce ≠ store.blob.file_nonce := by
  obtain ⟨cek, hout⟩ := save_real_items_ok store l1_password l2_password its g (store', g') h
  have hs : store' = (reseal_real store cek its g).1 := congrArg Prod.fst hout
  subst hs
  refine ⟨rfl, rfl, rfl, rfl, rfl, ?_⟩
  have := randBelow_ne hfresh NONCE_SIZE
  simpa [reseal_real, create_vault_blob, encrypt_payload_with_cek, aesgcm_encrypt]
    using this.symm

/-- C7 witness: saving one item into a freshly initialized single-level
vault. -/
theorem c7_witness :
    ((reseal_real ((init_new "p" none "d" 0).1.2.1) (Data.rand 32 0) [] 8).1.wrapped_l1 =
      ((init_new "p" none "d" 0).1.2.1).wrapped_l1) ∧
    ((reseal_real ((init_new "p" none "d" 0).1.2.1) (Data.rand 32 0) [] 8).1.blob.file_nonce ≠
      ((init_new "p" none "d" 0).1.2.1).blob.file_nonce) := by
  have h := c7_save_frame ((init_new "p" none "d" 0).1.2.1) "p" none [] 8
    ((reseal_real ((init_new "p" none "d" 0).1.2.1) (Data.rand 32 0) [] 8).1)
    ((reseal_real ((init_new "p" none "d" 0).1.2.1) (Data.rand 32 0) [] 8).2)
    (by decide) (by decide)
  exact ⟨h.2.2.1, h.2.2.2.2.2⟩

/-- C8: the invariant "`wrapped_l2` is present iff `policy.requires_l2`" is
established by `init_new` and preserved by every successful
`save_real_items`. -/
theorem c8_wrapped_l2_invariant (l1_password dpw : String) (l2_password : Option String)
    (g : Nat) (store store' : RealStore) (l1b : String) (l2b : Option String)
    (its : List Item) (g1 g' : Nat)
    (hsave : save_real_items store l1b l2b its g1 = Except.ok (store', g')) :
    ((init_new l1_password l2_password dpw g).1.2.1.wrapped_l2.isSome =
      (init_new l1_password l2_password dpw g).1.2.1.policy.requires_l2) ∧
    (store.wrapped_l2.isSome = store.policy.requires_l2 →
      store'.wrapped_l2.isSome = store'.policy.requires_l2) := by
  constructor
  · cases hf : falsy l2_password <;> simp [init_new, hf]
  · intro hinv
    obtain ⟨cek, hout⟩ := save_real_items_ok store l1b l2b its g1 (store', g') hsave
    have hs : store' = (reseal_real store cek its g1).1 := congrArg Prod.fst hout
    subst hs
    simpa [reseal_real] using hinv

/-- C8 witness: both conjuncts at a concrete initialization and a concrete
successful save. -/
theorem c8_witness :
    ((init_new "p" (some "q") "d" 0).1.2.1.wrapped_l2.isSome =
      (init_new "p" (some "q") "d" 0).1.2.1.policy.requires_l2) ∧
    ((reseal_real ((init_new "p" none "d" 0).1.2.1) (Data.rand 32 0) [] 8).1.wrapped_l2.isSome =
      (reseal_real ((init_new "p" none "d" 0).1.2.1) (Data.rand 32 0) [] 8).1.policy.requires_l2) := by
  have h := c8_wrapped_l2_invariant "p" "d" (some "q") 0
    ((init_new "p" none "d" 0).1.2.1)
    ((reseal_real ((init_new "p" none "d" 0).1.2.1) (Data.rand 32 0) [] 8).1)
    "p" none []
    8 ((reseal_real ((init_new "p" none "d" 0).1.2.1) (Data.rand 32 0) [] 8).2)
    (by decide)
  exact ⟨h.1, h.2 (by decide)⟩

/-- C9: after initializing with an L1 password, no L2 and a distinct decoy
password, the real vault unlocks to the empty list only under L1, the decoy
vault unlocks to the fixed welcome item only under the decoy password, and
the two records wrap independently generated (distinct) CEKs. -/
theorem c9_decoy_independence (l1_password dpw : String) (g : Nat)
    (hne : l1_password ≠ dpw) :
    unlock_real (init_new l1_password none dpw g).1.2.1 l1_password none = Except.ok [] ∧
    unlock_real (init_new l1_password none dpw g).1.2.1 dpw none =
      Except.error (VaultError.valueError "unable to unlock vault") ∧
    unlock_decoy (init_new l1_password none dpw g).1.2.2 dpw =
      Except.ok decoy_welcome_items ∧
    unlock_decoy (init_new l1_password none dpw g).1.2.2 l1_password =
      Except.error (VaultError.valueError "unable to unlock decoy") ∧
    unwrap_cek_with_password (init_new l1_password none dpw g).1.2.1.wrapped_l1 l1_password =
      some (Data.rand CEK_SIZE g) ∧
    unwrap_cek_with_password (init_new l1_password none dpw g).1.2.2.wrapped dpw =
      some (Data.rand CEK_SIZE (g + 4)) ∧
    Data.rand CEK_SIZE g ≠ Data.rand CEK_SIZE (g + 4) := by
  refine ⟨?_, ?_, ?_, ?_, ?_, ?_, by simp⟩ <;>
    simp [init_new, unlock_real, unlock_decoy, open_blob_items, unwrap_cek_with_password,
      aesgcm_decrypt, derive_key, wrap_cek_with_password, aesgcm_encrypt, create_cek,
      create_vault_blob, encrypt_payload_with_cek, decrypt_vault_blob,
      decrypt_payload_with_cek, json_loads, falsy, hne, Ne.symm hne]

/-- C9 witness at the spec's concrete passwords. -/
theorem c9_witness :
    unlock_real (init_new "alpha" none "beta" 0).1.2.1 "alpha" none = Except.ok [] ∧
    unlock_decoy (init_new "alpha" none "beta" 0).1.2.2 "alpha" =
      Except.error (VaultError.valueError "unable to unlock decoy") := by
  have h := c9_decoy_independence "alpha" "beta" 0 (by decide)
  exact ⟨h.1, h.2.2.2.1⟩

/-- C10: when the policy does not require L2, `unlock_real` and
`save_real_items` never read the L2 argument — the result is identical for
every L2 value — and the "two-level authentication required" failure is
never raised. -/
theorem c10_l2_ignored (store : RealStore) (l1_password : String) (its : List Item)
    (g : Nat) (hreq : store.policy.requires_l2 = false) :
    (∀ l2a l2b : Option String,
      unlock_real store l1_password l2a = unlock_real store l1_password l2b) ∧
    (∀ l2a l2b : Option String,
      save_real_items store l1_password l2a its g =
        save_real_items store l1_password l2b its g) ∧
    (∀ l2a : Option String,
      unlock_real store l1_password l2a ≠
        Except.error (VaultError.valueError "two-level authentication required")) ∧
    (∀ l2a : Option String,
      save_real_items store l1_password l2a its g ≠
        Except.error (VaultError.valueError "two-level authentication required")) := by
  refine ⟨fun l2a l2b => ?_, fun l2a l2b => ?_, fun l2a => ?_, fun l2a => ?_⟩
  · simp [unlock_real, hreq]
  · simp [save_real_items, hreq]
  · cases hu : unwrap_cek_with_password store.wrapped_l1 l1_password with
    | none => simp [unlock_real, hu]
    | some cek =>
      simp only [unlock_real, hu, hreq, if_false, Bool.false_eq_true, open_blob_items]
      split
      · simp
      · split <;> simp
  · cases hu : unwrap_cek_with_password store.wrapped_l1 l1_password with
    | none => simp [save_real_items, hu]
    | some cek => simp [save_real_items, hu, hreq]

/-- C10 witness: a garbage L2 argument on a single-level vault is ignored. -/
theorem c10_witness :
    unlock_real ((init_new "alpha" none "beta" 0).1.2.1) "alpha" (some "junk") =
      unlock_real ((init_new "alpha" none "beta" 0).1.2.1) "alpha" none ∧
    save_real_items ((init_new "alpha" none "beta" 0).1.2.1) "alpha" (some "junk") [] 5 =
      save_real_items ((init_new "alpha" none "beta" 0).1.2.1) "alpha" none [] 5 ∧
    unlock_real ((init_new "alpha" none "beta" 0).1.2.1) "alpha" (some "junk") ≠
      Except.error (VaultError.valueError "two-level authentication required") := by
  have h := c10_l2_ignored ((init_new "alpha" none "beta" 0).1.2.1) "alpha" [] 5 (by decide)
  exact ⟨h.1 (some "junk") none, h.2.1 (some "junk") none, h.2.2.1 (some "junk")⟩
